import Mathlib

/-!
Verification of the prayertodo chatbot backend (phase2_new) against its
natural-language specification.  The Python sources are shallowly embedded:
each Lean definition mirrors one Python function or class from
`src/phase2_new/backend`, with database sessions replaced by explicit state
passing and exceptions replaced by sum types.
-/

namespace PrayerTodo

/-! ## Python string helpers

`pyLower`/`pyUpper` model `str.lower()`/`str.upper()` (ASCII range, which is
all the code relies on), and `pyContains s sub` models the Python expression
`sub in s` (substring test). -/

def pyLower (s : String) : String := String.mk (s.toList.map Char.toLower)

def pyUpper (s : String) : String := String.mk (s.toList.map Char.toUpper)

/-- Does `needle` occur as a contiguous run inside the second list? -/
def infixCheck (needle : List Char) : List Char → Bool
  | [] => needle.isPrefixOf []
  | c :: cs => needle.isPrefixOf (c :: cs) || infixCheck needle cs

def pyContains (s sub : String) : Bool := infixCheck sub.toList s.toList

/-! ## ToolResult (chatbot/mcp_tools/base.py)

`ToolResult` is the uniform envelope returned by every `DatabaseClient`
handler: `success`, optional structured `data`, optional `error` code and
optional human `error_message`.  The `data` dict payloads that the handlers
actually build are enumerated in `ToolData`. -/

/-- One task row as serialized by `DatabaseClient.list_tasks` (the dict with
keys id/title/category/priority/completed/linked_prayer/created_at). -/
structure TaskSummary where
  id : Nat
  title : String
  category : String
  priority : String
  completed : Bool
  linked_prayer : Option String
  created_at : Nat
deriving Repr, DecidableEq

/-- The structured `data` payloads built by the task handlers in
`db_client.py`. -/
inductive ToolData where
  /-- payload of a successful `create_task` -/
  | taskCreated (task_id : Nat) (title : String) (category : String)
      (priority : String) (completed : Bool)
  /-- payload of a successful `list_tasks` -/
  | taskList (tasks : List TaskSummary) (total : Nat)
  /-- payload of a successful `update_task` -/
  | taskUpdated (task_id : Nat) (title : String)
  /-- payload of a successful `delete_task` (a message dict) -/
  | deleted (message : String)
deriving Repr, DecidableEq

/-- `ToolResult` from `chatbot/mcp_tools/base.py`. -/
structure ToolResult where
  success : Bool
  data : Option ToolData := none
  error : Option String := none
  error_message : Option String := none
deriving Repr, DecidableEq

/-! ## Data model (models.py)

`SpiritualTask` keeps the fields that `db_client.py` reads or writes.  Enum
columns (`category`, `priority`, `recurrence`, `linked_prayer`) are stored as
the uppercase member-name strings that `db_client.py` produces for the
database.  `created_at` timestamps are abstracted to naturals (larger =
newer); `due_datetime` is kept as the raw ISO string passed in (the
`datetime.fromisoformat` round-trip is not modelled). -/

structure SpiritualTask where
  id : Nat
  user_id : Nat
  title : String
  description : String
  category : String
  priority : String
  masjid_id : Option Nat := none
  linked_prayer : Option String := none
  recurrence : String := "NONE"
  recurrence_pattern : Option String := none
  minutes_before_prayer : Option Int := none
  due_datetime : Option String := none
  completed : Bool := false
  created_at : Nat := 0
deriving Repr, DecidableEq

/-- The task table: rows in insertion order plus the autoincrement counter
that assigns the next primary key. -/
structure DB where
  tasks : List SpiritualTask
  nextId : Nat
deriving Repr, DecidableEq

/-! The enum columns of `spiritual_tasks` are `sa.Enum` types over the
classes in models.py; the database labels (and the only strings the bind
accepts) are the member names, i.e. the uppercase forms.  A commit that
binds any other string raises, which the handlers catch into
`DATABASE_ERROR`. -/

/-- The member names of `TaskCategory` (models.py). -/
def TaskCategoryNames : List String := ["FARZ", "SUNNAH", "NAFL", "DEED", "OTHER"]

/-- The member names of `Priority` (models.py). -/
def PriorityNames : List String := ["URGENT", "HIGH", "MEDIUM", "LOW"]

/-- The member names of `Recurrence` (models.py). -/
def RecurrenceNames : List String := ["NONE", "DAILY", "WEEKLY", "MONTHLY"]

/-- The member names of `LinkedPrayer` (models.py). -/
def LinkedPrayerNames : List String := ["FAJR", "DHUHR", "ASR", "MAGHRIB", "ISHA", "JUMMAH"]

namespace DatabaseClient

/-- Commit-time validation of a row's enum-typed columns: the bind accepts
exactly the member-name labels (and NULL for the nullable
`linked_prayer`). -/
def enumColumnsValid (t : SpiritualTask) : Bool :=
  TaskCategoryNames.contains t.category
    && PriorityNames.contains t.priority
    && RecurrenceNames.contains t.recurrence
    && (match t.linked_prayer with
        | some s => LinkedPrayerNames.contains s
        | none => true)

/-- `DatabaseClient.create_task` (db_client.py lines 24-84).  Optional
parameters carry the Python defaults; the row is built exactly as in the
source (`category.upper() if category else "OTHER"` and so on).  At
`session.commit()` the enum-typed columns accept only their member-name
labels: a row carrying any other string makes the commit raise, which the
`except` arm turns into a failed result with error `DATABASE_ERROR`,
leaving the table as it was.  A valid row is appended with the fresh
autoincrement id and echoed back in the success payload.  `storageFail`
models any other storage-layer exception on the same `except` arm. -/
def create_task (db : DB) (user_id : Nat) (title : String)
    (category : String := "Other") (priority : String := "medium")
    (description : Option String := none) (due_datetime : Option String := none)
    (masjid_id : Option Nat := none) (linked_prayer : Option String := none)
    (recurrence : Option String := none) (recurrence_pattern : Option String := none)
    (minutes_before_prayer : Option Int := none) (created_at : Nat := 0)
    (storageFail : Bool := false) : ToolResult × DB :=
  if storageFail then
    (⟨false, none, some "DATABASE_ERROR", some "Failed to create task"⟩, db)
  else
    let task : SpiritualTask :=
      { id := db.nextId
        user_id := user_id
        title := title
        description := description.getD ""
        category := if category ≠ "" then pyUpper category else "OTHER"
        priority := if priority ≠ "" then pyUpper priority else "MEDIUM"
        masjid_id := masjid_id
        linked_prayer :=
          match linked_prayer with
          | some s => if s ≠ "" then some (pyUpper s) else none
          | none => none
        recurrence :=
          match recurrence with
          | some s => if s ≠ "" then pyUpper s else "NONE"
          | none => "NONE"
        recurrence_pattern := recurrence_pattern
        minutes_before_prayer := minutes_before_prayer
        due_datetime := due_datetime
        completed := false
        created_at := created_at }
    if enumColumnsValid task then
      (⟨true,
        some (.taskCreated task.id task.title task.category task.priority task.completed),
        none, none⟩,
       ⟨db.tasks ++ [task], db.nextId + 1⟩)
    else
      (⟨false, none, some "DATABASE_ERROR", some "Failed to create task"⟩, db)

/-- The row filter of `DatabaseClient.list_tasks`: `user_id` always, then
each optional filter exactly when it is truthy in Python (`if category:`,
`if completed is not None:`, `if priority:` — an empty string is falsy and
applies no filter). -/
def listFilter (user_id : Nat) (category : Option String) (completed : Option Bool)
    (priority : Option String) (t : SpiritualTask) : Bool :=
  t.user_id == user_id
    && (match category with
        | some c => if c ≠ "" then t.category == c else true
        | none => true)
    && (match completed with
        | some b => t.completed == b
        | none => true)
    && (match priority with
        | some p => if p ≠ "" then t.priority == p else true
        | none => true)

/-- The ordered row set produced by the `list_tasks` query:
filter, then `order_by(SpiritualTask.created_at.desc())`. -/
def listTasksRows (db : DB) (user_id : Nat) (category : Option String)
    (completed : Option Bool) (priority : Option String) : List SpiritualTask :=
  (db.tasks.filter (listFilter user_id category completed priority)).mergeSort
    (fun a b => Nat.ble b.created_at a.created_at)

/-- Row serialization used by `list_tasks`. -/
def summarize (t : SpiritualTask) : TaskSummary :=
  ⟨t.id, t.title, t.category, t.priority, t.completed, t.linked_prayer, t.created_at⟩

/-- `DatabaseClient.list_tasks` (db_client.py lines 86-134). -/
def list_tasks (db : DB) (user_id : Nat) (category : Option String := none)
    (completed : Option Bool := none) (priority : Option String := none) : ToolResult :=
  let rows := listTasksRows db user_id category completed priority
  ⟨true, some (.taskList (rows.map summarize) rows.length), none, none⟩

/-- The `**kwargs` of `DatabaseClient.update_task`: one optional value per
settable column.  `none` is both "key not passed" and "value is None" — the
source skips the `setattr` in either case (`if hasattr(task, key) and value
is not None`). -/
structure TaskPatch where
  title : Option String := none
  description : Option String := none
  category : Option String := none
  priority : Option String := none
  masjid_id : Option Nat := none
  linked_prayer : Option String := none
  recurrence : Option String := none
  recurrence_pattern : Option String := none
  minutes_before_prayer : Option Int := none
  due_datetime : Option String := none
  completed : Option Bool := none
deriving Repr, DecidableEq

/-- The field-by-field `setattr` loop of `update_task`: every provided value
overwrites the column, every omitted one leaves it untouched. -/
def applyPatch (t : SpiritualTask) (p : TaskPatch) : SpiritualTask :=
  { t with
    title := p.title.getD t.title
    description := p.description.getD t.description
    category := p.category.getD t.category
    priority := p.priority.getD t.priority
    masjid_id := match p.masjid_id with | some v => some v | none => t.masjid_id
    linked_prayer := match p.linked_prayer with | some v => some v | none => t.linked_prayer
    recurrence := p.recurrence.getD t.recurrence
    recurrence_pattern :=
      match p.recurrence_pattern with | some v => some v | none => t.recurrence_pattern
    minutes_before_prayer :=
      match p.minutes_before_prayer with | some v => some v | none => t.minutes_before_prayer
    due_datetime := match p.due_datetime with | some v => some v | none => t.due_datetime
    completed := p.completed.getD t.completed }

/-- Replace the first element satisfying `p` (the `.first()` row of the
query) by its image under `f`; every other row is untouched. -/
def updateFirst (p : α → Bool) (f : α → α) : List α → List α
  | [] => []
  | x :: xs => if p x then f x :: xs else x :: updateFirst p f xs

/-- The ownership-scoped lookup shared by `update_task`, `delete_task` and
`complete_task`: `filter(id == task_id, user_id == user_id).first()`. -/
def ownedBy (user_id task_id : Nat) (t : SpiritualTask) : Bool :=
  t.id == task_id && t.user_id == user_id

/-- Commit-time validation of the enum-typed values a patch binds: the
UPDATE statement sets exactly the provided columns, and each enum column
accepts only its member-name labels. -/
def patchEnumValid (p : TaskPatch) : Bool :=
  (match p.category with | some v => TaskCategoryNames.contains v | none => true)
    && (match p.priority with | some v => PriorityNames.contains v | none => true)
    && (match p.recurrence with | some v => RecurrenceNames.contains v | none => true)
    && (match p.linked_prayer with | some v => LinkedPrayerNames.contains v | none => true)

/-- `DatabaseClient.update_task` (db_client.py lines 136-175).  The row is
fetched by `(task_id, user_id)` and patched by the `setattr` loop; at
`session.commit()` an enum-typed column bound to a string that is not one
of its member-name labels makes the commit raise, so the `except` arm
returns a failed result with error `DATABASE_ERROR` and the table is left
unchanged. -/
def update_task (db : DB) (user_id : Nat) (task_id : Nat) (patch : TaskPatch) :
    ToolResult × DB :=
  match db.tasks.find? (ownedBy user_id task_id) with
  | none =>
      (⟨false, none, some "NOT_FOUND",
         some ("Task " ++ toString task_id ++ " not found")⟩, db)
  | some t =>
      if patchEnumValid patch then
        let t' := applyPatch t patch
        (⟨true, some (.taskUpdated t'.id t'.title), none, none⟩,
         ⟨updateFirst (ownedBy user_id task_id) (fun x => applyPatch x patch) db.tasks,
          db.nextId⟩)
      else
        (⟨false, none, some "DATABASE_ERROR", some "Failed to update task"⟩, db)

/-- `DatabaseClient.delete_task` (db_client.py lines 177-207). -/
def delete_task (db : DB) (user_id : Nat) (task_id : Nat) : ToolResult × DB :=
  match db.tasks.find? (ownedBy user_id task_id) with
  | none =>
      (⟨false, none, some "NOT_FOUND",
         some ("Task " ++ toString task_id ++ " not found")⟩, db)
  | some _ =>
      (⟨true, some (.deleted "Task deleted successfully"), none, none⟩,
       ⟨db.tasks.eraseP (ownedBy user_id task_id), db.nextId⟩)

end DatabaseClient

/-! ## Tool name constants (chatbot/mcp_tools/constants.py) -/

def TASK_MANAGEMENT_TOOLS : List String :=
  ["create_task", "list_tasks", "update_task", "delete_task", "complete_task"]

def MASJID_TOOLS : List String :=
  ["list_masjids", "get_masjid_details", "search_masjids"]

def PRAYER_TOOLS : List String :=
  ["get_prayer_times", "get_current_prayer"]

def HADITH_TOOLS : List String :=
  ["get_daily_hadith", "get_random_hadith"]

/-- The required closed set of 12 tool names. -/
def ALL_TOOL_NAMES : List String :=
  TASK_MANAGEMENT_TOOLS ++ MASJID_TOOLS ++ PRAYER_TOOLS ++ HADITH_TOOLS

/-! ## Tool registry (chatbot/mcp_tools/registry.py, base.py)

The registry's `_tools` dict is modelled as an association list from tool
name to handler; being a dict, its key list is duplicate-free (and
`_register_all_tools` raises on a duplicate before ever storing one, see
`register_all_tools`).  Every registered tool is a `CallableTool`
(tasks_tools.py, masjid_tools.py, prayer_tools.py, hadith_tools.py all
construct `CallableTool`), so tool execution goes through
`CallableTool.execute`. -/

/-- What a handler (`callable_func` of a `CallableTool`) does on one call:
either return a `ToolResult` or raise an exception with a message. -/
inductive HandlerBehavior where
  | ok (r : ToolResult)
  | raises (msg : String)
deriving Repr, DecidableEq

/-- The dict that tool execution hands back to the registry caller.  It is
`ToolResult.to_dict()` (fields with value `None` excluded, which the
`Option` fields already express) plus the extra `available_tools` key that
only the registry's not-found branch adds. -/
structure ToolDict where
  success : Bool
  data : Option ToolData := none
  error : Option String := none
  error_message : Option String := none
  available_tools : Option (List String) := none
deriving Repr, DecidableEq

/-- `ToolResult.to_dict` (base.py). -/
def ToolResult.to_dict (r : ToolResult) : ToolDict :=
  ⟨r.success, r.data, r.error, r.error_message, none⟩

/-- `CallableTool.execute` (base.py lines 177-210): call the wrapped
function, convert a `ToolResult` to a dict; any exception from the handler
is caught and converted to a failed dict with error `EXECUTION_ERROR` —
this function never raises. -/
def CallableTool.execute (_tool_name : String) (behavior : HandlerBehavior) : ToolDict :=
  match behavior with
  | .ok r => r.to_dict
  | .raises msg =>
      { success := false
        error := some "EXECUTION_ERROR"
        error_message := some ("Tool execution failed: " ++ msg) }

/-- The registry state: the `_tools` dict as an association list from name
to the behavior its handler exhibits on the call under consideration. -/
structure ToolRegistry where
  tools : List (String × HandlerBehavior)
deriving Repr, DecidableEq

/-- `ToolRegistry.get_all_tool_names`: `list(self._tools.keys())`. -/
def ToolRegistry.get_all_tool_names (reg : ToolRegistry) : List String :=
  reg.tools.map Prod.fst

/-- The registration loop of `ToolRegistry._register_all_tools`: insert the
tool names one by one into the key list `acc`, raising `RuntimeError` on a
duplicate. -/
def registerTools : List String → List String → Except String (List String)
  | [], acc => .ok acc
  | n :: ns, acc =>
      if acc.contains n then
        .error ("Duplicate tool name '" ++ n ++ "' detected. Tool names must be unique.")
      else
        registerTools ns (acc ++ [n])

/-- `ToolRegistry._register_all_tools` (registry.py lines 36-60), starting
from the empty dict. -/
def register_all_tools (names : List String) : Except String (List String) :=
  registerTools names []

/-- `ToolRegistry.execute` (registry.py lines 87-124): a name absent from
the dict yields a structured `TOOL_NOT_FOUND` dict carrying the available
tool names; otherwise the tool's `execute` runs (a `CallableTool`, which
itself never raises).  The surrounding `try/except` that would map an
escaping exception to `TOOL_EXECUTION_ERROR` is unreachable for
`CallableTool` handlers.  This function is total: it never raises. -/
def ToolRegistry.execute (reg : ToolRegistry) (tool_name : String) : ToolDict :=
  match reg.tools.lookup tool_name with
  | none =>
      { success := false
        error := some "TOOL_NOT_FOUND"
        error_message := some ("Tool '" ++ tool_name ++ "' not found in registry")
        available_tools := some reg.get_all_tool_names }
  | some behavior => CallableTool.execute tool_name behavior

/-- `ToolRegistry.get_missing_tools` (registry.py lines 133-145): the
required names not present among the registered ones. -/
def get_missing_tools (registered : List String) : List String :=
  ALL_TOOL_NAMES.filter (fun n => !registered.contains n)

/-- `ToolRegistry.validate` (registry.py lines 147-168): false when some
required name is missing, false when the registered count differs from the
required count, true otherwise. -/
def validate (registered : List String) : Bool :=
  if get_missing_tools registered ≠ [] then false
  else if registered.length ≠ ALL_TOOL_NAMES.length then false
  else true

/-- `validate_all_tools` (registry.py lines 222-243): when `validate` fails
it raises a `RuntimeError` whose message carries the missing-name list
(modelled as the `Except.error` payload); an incomplete registry therefore
aborts startup. -/
def validate_all_tools (registered : List String) : Except (List String) Bool :=
  if validate registered then .ok true
  else .error (get_missing_tools registered)

/-! ## Gemini client (chatbot/gemini/config.py, client.py)

`generate_response` is a `while attempt <= max_retries` loop.  The remote
API is modelled as a function from the (1-based) attempt number to the
outcome `genai` produces on that attempt; the exception classes raised by
the client form `GenOutcome`.  A run records the result, how many attempts
executed, and the list of back-off delays slept (in order). -/

/-- The fields of `GeminiConfig` the retry loop reads.  `retry_delay` is a
rational standing for the Python float (default 1.0). -/
structure GeminiConfig where
  model : String := "gemini-2.0-flash"
  max_retries : Nat := 2
  retry_delay : ℚ := 1
deriving Repr, DecidableEq

/-- What one `generate_content` call does: succeed with text, or raise one
of the `google_exceptions` classes the client distinguishes. -/
inductive ApiOutcome where
  | ok (text : String)
  /-- `google_exceptions.Unauthenticated` -/
  | unauthenticated
  /-- `google_exceptions.ResourceExhausted` -/
  | resourceExhausted
  /-- `google_exceptions.DeadlineExceeded` or `ServiceUnavailable` -/
  | networkErr
  /-- `google_exceptions.NotFound` -/
  | notFound
  /-- any other exception -/
  | other (msg : String)
deriving Repr, DecidableEq

/-- What `generate_response` produces: the returned text, or the typed
exception it raises.  `geminiError` is the base `GeminiError` class, raised
directly for the model-not-found and unexpected-error branches. -/
inductive GenOutcome where
  | success (text : String)
  | authError
  | quotaError
  | networkError (msg : String)
  | geminiError (msg : String)
deriving Repr, DecidableEq

/-- One finished run of `generate_response`: outcome, number of attempts
performed, and the sleeps executed between attempts, in order. -/
structure RunTrace where
  result : GenOutcome
  attempts : Nat
  delays : List ℚ
deriving Repr, DecidableEq

/-- Message of the `GeminiError` raised on `google_exceptions.NotFound`. -/
def modelNotFoundMsg (cfg : GeminiConfig) : String :=
  "The Gemini model '" ++ cfg.model ++
    "' is not available. Please check the model name in your configuration."

/-- Message of the `GeminiNetworkError` raised when retries run out. -/
def networkUnavailableMsg : String :=
  "Network error communicating with Gemini API. The service may be temporarily unavailable. Please try again later."

/-- The linear back-off schedule: the k-th sleep (1-based) lasts
`retry_delay * k`, matching `delay = self.config.retry_delay * attempt`. -/
def linearDelays (cfg : GeminiConfig) (m : Nat) : List ℚ :=
  (List.range m).map (fun i => cfg.retry_delay * ((i + 1 : Nat) : ℚ))

/-- The body of the `while attempt <= self.config.max_retries` loop of
`GeminiClient.generate_response` (client.py lines 110-243).  `attempt` is
the counter value at the loop test (it is incremented at the top of the
body); `fuel` only bounds the recursion and is chosen large enough in
`generate_response` that the zero case is never reached. -/
def genLoop (cfg : GeminiConfig) (api : Nat → ApiOutcome) :
    Nat → Nat → List ℚ → RunTrace
  | 0, attempt, delays => ⟨.networkError "Max retries exceeded", attempt, delays⟩
  | fuel + 1, attempt, delays =>
    if attempt ≤ cfg.max_retries then
      let a := attempt + 1
      match api a with
      | .ok t => ⟨.success t, a, delays⟩
      | .unauthenticated => ⟨.authError, a, delays⟩
      | .resourceExhausted => ⟨.quotaError, a, delays⟩
      | .notFound => ⟨.geminiError (modelNotFoundMsg cfg), a, delays⟩
      | .other msg =>
          ⟨.geminiError ("An unexpected error occurred while calling Gemini API: " ++ msg),
           a, delays⟩
      | .networkErr =>
          if a < cfg.max_retries then
            genLoop cfg api fuel a (delays ++ [cfg.retry_delay * (a : ℚ)])
          else
            ⟨.networkError networkUnavailableMsg, a, delays⟩
    else
      ⟨.networkError "Max retries exceeded", attempt, delays⟩

/-- `GeminiClient.generate_response` (client.py lines 71-243): run the loop
from `attempt = 0` with no sleeps performed.  The fuel `max_retries + 1`
covers every reachable iteration. -/
def generate_response (cfg : GeminiConfig) (api : Nat → ApiOutcome) : RunTrace :=
  genLoop cfg api (cfg.max_retries + 1) 0 []

/-! ## Regular expressions (semantics for Python `re.search`)

The intent patterns of `detect_intent` (agent.py) use only literals,
alternation of literals, `\s+` and `.*`.  They are embedded into a small
regex language and decided with Brzozowski derivatives; `research r s`
models `re.search(r, s) is not None` by matching `.*r.*` against the whole
string (`anyChar` here really is any character, while the Python `.`
excludes the newline, as `dotChar` does). -/

inductive RE where
  /-- matches nothing -/
  | nul
  /-- matches the empty string -/
  | eps
  /-- matches one character satisfying the predicate -/
  | chr (p : Char → Bool)
  | seq (a b : RE)
  | alt (a b : RE)
  | star (a : RE)

/-- Does the expression accept the empty string? -/
def RE.nullable : RE → Bool
  | .nul => false
  | .eps => true
  | .chr _ => false
  | .seq a b => a.nullable && b.nullable
  | .alt a b => a.nullable || b.nullable
  | .star _ => true

/-- Smart alternation (keeps derivatives small). -/
def RE.mkAlt : RE → RE → RE
  | .nul, b => b
  | a, .nul => a
  | a, b => .alt a b

/-- Smart concatenation (keeps derivatives small). -/
def RE.mkSeq : RE → RE → RE
  | .nul, _ => .nul
  | _, .nul => .nul
  | .eps, b => b
  | a, .eps => a
  | a, b => .seq a b

/-- Brzozowski derivative with respect to one character. -/
def RE.deriv (c : Char) : RE → RE
  | .nul => .nul
  | .eps => .nul
  | .chr p => if p c then .eps else .nul
  | .seq a b =>
      if a.nullable then RE.mkAlt (RE.mkSeq (a.deriv c) b) (b.deriv c)
      else RE.mkSeq (a.deriv c) b
  | .alt a b => RE.mkAlt (a.deriv c) (b.deriv c)
  | .star a => RE.mkSeq (a.deriv c) (.star a)

/-- Whole-string match. -/
def RE.matches (r : RE) (s : String) : Bool :=
  (s.toList.foldl (fun r c => r.deriv c) r).nullable

/-- A literal string. -/
def RE.lit (s : String) : RE :=
  s.toList.foldr (fun c r => RE.seq (.chr (fun d => d == c)) r) .eps

/-- Alternation of literal strings, as in `(delete|remove|cancel)`. -/
def RE.alts (ss : List String) : RE :=
  ss.foldr (fun s r => RE.alt (RE.lit s) r) .nul

/-- Python `\s` (the ASCII whitespace characters). -/
def wsChar : RE :=
  .chr (fun c => c == ' ' || c == '\t' || c == '\n' || c == '\r' ||
                 c == '\x0b' || c == '\x0c')

/-- Python `\s+`. -/
def ws1 : RE := .seq wsChar (.star wsChar)

/-- Python `.` (any character except newline). -/
def dotChar : RE := .chr (fun c => c != '\n')

/-- Python `.*`. -/
def dotStar : RE := .star dotChar

/-- `re.search(pattern, s)` as a Boolean: some substring of `s` matches. -/
def research (r : RE) (s : String) : Bool :=
  RE.matches (.seq (.star (.chr (fun _ => true))) (.seq r (.star (.chr (fun _ => true))))) s

/-! ## Intent classifier (chatbot/agent/agent.py, detect_intent lines 33-104) -/

/-- `create_patterns`. -/
def create_patterns : List RE :=
  [ .seq (RE.lit "task") (.seq ws1 (RE.alts ["create", "bana", "add", "new"]))
  , .seq (RE.alts ["bana", "create", "add"]) (.seq ws1 (.seq dotStar (RE.lit "task")))
  , .seq (RE.lit "namaz") (.seq dotStar (RE.lit "task"))
  , .seq (RE.alts ["fajr", "dhuhr", "asr", "maghrib", "isha"]) (.seq dotStar (RE.lit "task")) ]

/-- `update_patterns`. -/
def update_patterns : List RE :=
  [ .seq (RE.lit "task") (.seq ws1 (RE.alts ["update", "edit", "change", "modify"]))
  , .seq (RE.alts ["complete", "done", "finish"]) (.seq dotStar (RE.lit "task"))
  , .seq (RE.lit "urgent") (.seq dotStar (RE.lit "task"))
  , .seq (RE.lit "task") (.seq dotStar (RE.lit "urgent")) ]

/-- `delete_patterns`. -/
def delete_patterns : List RE :=
  [ .seq (RE.lit "task") (.seq ws1 (RE.alts ["delete", "remove", "cancel"]))
  , .seq (RE.alts ["delete", "remove", "cancel"]) (.seq dotStar (RE.lit "task")) ]

/-- `list_patterns`. -/
def list_patterns : List RE :=
  [ .seq (RE.alts ["show", "display", "list", "dikhao"]) (.seq dotStar (RE.lit "task"))
  , .seq (RE.lit "task") (.seq dotStar (RE.lit "list"))
  , .seq (RE.lit "mery") (.seq ws1 (RE.lit "task"))
  , .seq (RE.lit "konse") (.seq ws1 (RE.lit "task")) ]

/-- `masjid_patterns`. -/
def masjid_patterns : List RE :=
  [ .seq (RE.lit "masjid") (.seq dotStar (RE.lit "search"))
  , .seq (RE.lit "konsi") (.seq ws1 (RE.lit "masjid"))
  , .seq (RE.lit "masjid") (.seq dotStar (RE.lit "area"))
  , .seq (RE.lit "namaz") (.seq dotStar (RE.lit "kahan")) ]

/-- Does any pattern of the set fire on the (already lowered) message? -/
def anyPattern (ps : List RE) (msg_lower : String) : Bool :=
  ps.any (fun p => research p msg_lower)

/-- `detect_intent` (agent.py lines 33-104): lower-case the input, try the
pattern sets in declaration order, return the intent of the first set that
matches, falling back to `conversation`. -/
def detect_intent (user_message : String) : String :=
  let msg_lower := pyLower user_message
  if anyPattern create_patterns msg_lower then "create_task"
  else if anyPattern update_patterns msg_lower then "update_task"
  else if anyPattern delete_patterns msg_lower then "delete_task"
  else if anyPattern list_patterns msg_lower then "list_tasks"
  else if anyPattern masjid_patterns msg_lower then "search_masjids"
  else "conversation"

/-! ## Dispatcher (chatbot/agent/agent.py, run_agent lines 150-296)

`run_agent` detects the intent and either serves it with one `execute_tool`
call plus a templated reply, answers with a canned prompt (update/delete),
or falls through to the generation client.  Tool execution is modelled by
the oracle `execT : String → ToolDict` (the result the global registry
returns for that tool name on this request; parameter extraction does not
influence any property proved here because the oracle is quantified over),
and the generation call by `gem : Except GemErr String` (the text returned,
or the typed exception raised). -/

/-- The typed exceptions `run_agent` can let escape (raised by
`GeminiClient.generate_response`). -/
inductive GemErr where
  | auth
  | quota
  | network
  | gemini
deriving Repr, DecidableEq

instance {ε α : Type} [DecidableEq ε] [DecidableEq α] : DecidableEq (Except ε α) :=
  fun a b =>
    match a, b with
    | .ok x, .ok y =>
        if h : x = y then .isTrue (h ▸ rfl)
        else .isFalse (fun hc => h (Except.ok.inj hc))
    | .error x, .error y =>
        if h : x = y then .isTrue (h ▸ rfl)
        else .isFalse (fun hc => h (Except.error.inj hc))
    | .ok _, .error _ => .isFalse (fun hc => Except.noConfusion hc)
    | .error _, .ok _ => .isFalse (fun hc => Except.noConfusion hc)

/-- One `run_agent` call: the reply (or escaped exception), which tool name
was passed to `execute_tool` (if any), and whether the generation client
was called. -/
structure AgentRun where
  result : Except GemErr String
  toolCalled : Option String
  geminiCalled : Bool
deriving Repr, DecidableEq

/-- The failure reply template of the create branch:
`f"❌ Failed to create task: {result.get('error', 'Unknown error')}"`. -/
def createFailReply (d : ToolDict) : String :=
  "❌ Failed to create task: " ++ d.error.getD "Unknown error"

/-- The failure reply template of the list branch. -/
def listFailReply (d : ToolDict) : String :=
  "❌ Failed to fetch tasks: " ++ d.error.getD "Unknown error"

/-- The failure reply template of the masjid-search branch. -/
def searchFailReply (d : ToolDict) : String :=
  "❌ Failed to search masjids: " ++ d.error.getD "Unknown error"

/-- The canned update prompt (agent.py lines 233-235). -/
def updatePromptReply : String :=
  "To update a task, please provide the task number or title you want to update."

/-- The canned delete prompt (agent.py lines 237-239). -/
def deletePromptReply : String :=
  "To delete a task, please provide the task number or title you want to delete."

/-- The success reply of the create branch.  The source reads
`result.get('task', {})`, but no handler result carries a `task` key (the
payload sits under `data`), so every lookup yields `None` and the reply is
this constant string. -/
def createSuccessReply : String :=
  "✅ Task created successfully!\n\nTitle: None\nPriority: None\nLinked Prayer: None"

/-- The success reply of the list branch: `result.get('tasks', [])` is
always empty (the rows sit under `data`), so the empty-list text is
returned. -/
def listSuccessReply : String :=
  "You don't have any tasks yet. Would you like to create one?"

/-- The area names the masjid-search branch greps for.  The source takes
the leftmost occurrence in the message; this model takes the first of this
list that occurs, which only differs when two area names co-occur. -/
def masjidAreas : List String :=
  ["North Nazimabad", "DHA", "Clifton", "Gulshan", "Malir"]

/-- Area extraction of the masjid-search branch (case-insensitive search). -/
def extractArea (user_message : String) : Option String :=
  masjidAreas.find? (fun a => pyContains (pyLower user_message) (pyLower a))

/-- The success reply of the masjid-search branch: `result.get('masjids',
[])` is always empty (rows sit under `data`), so the no-results text is
returned, mentioning the extracted area when there is one. -/
def searchSuccessReply (area : Option String) : String :=
  "No masjids found" ++ (match area with | some a => " in " ++ a | none => "") ++ "."

/-- `run_agent` (agent.py lines 150-296).  The conversation fallback needs
the generation client; `run_agent` is only ever reached through the chat
endpoint with an initialized client, so the `ValueError` arm for a missing
client is not modelled. -/
def run_agent (execT : String → ToolDict) (gem : Except GemErr String)
    (user_message : String) : AgentRun :=
  let intent := detect_intent user_message
  if intent = "create_task" then
    let result := execT "create_task"
    ⟨.ok (if result.success then createSuccessReply else createFailReply result),
     some "create_task", false⟩
  else if intent = "list_tasks" then
    let result := execT "list_tasks"
    ⟨.ok (if result.success then listSuccessReply else listFailReply result),
     some "list_tasks", false⟩
  else if intent = "update_task" then
    ⟨.ok updatePromptReply, none, false⟩
  else if intent = "delete_task" then
    ⟨.ok deletePromptReply, none, false⟩
  else if intent = "search_masjids" then
    let result := execT "search_masjids"
    ⟨.ok (if result.success then searchSuccessReply (extractArea user_message)
          else searchFailReply result),
     some "search_masjids", false⟩
  else
    ⟨gem.map id, none, true⟩

/-! ## Chat endpoint (routers/chatbot.py, chat lines 68-385)

The endpoint is modelled as a function of: the tool-execution oracle, the
generation outcome, whether a Gemini client is available (the module global
or the per-request re-initialization succeeding; when neither holds the
generic exception arm answers `internal_error`), the detected language, the
request, and the correlation id.  `detect_language` itself lives in
`chatbot/utils/language.py`, which is not part of the sources; per the spec
it derives a language code from keyword heuristics and is only used to pick
the localized message text, so the detected code is passed in as the
`language` argument. -/

/-- The fixed mutation-keyword list of the `chat` handler
(routers/chatbot.py lines 147-152). -/
def auth_required_keywords : List String :=
  ["create", "add", "bana", "banao",
   "delete", "remove", "hata",
   "update", "edit", "change", "badal",
   "task", "reminder"]

/-- The request fields the modelled paths read. -/
structure ChatRequest where
  message : String
  user_id : Option Nat := none
deriving Repr, DecidableEq

/-- `ChatResponse` (routers/chatbot.py lines 56-65). -/
structure ChatResponse where
  success : Bool
  message : String := ""
  error : Option String := none
  error_message : Option String := none
  request_id : String
deriving Repr, DecidableEq

/-- One handled request: the response envelope plus what the handler did on
the way (whether `run_agent` ran, which tool was executed, whether the
generation client was called). -/
structure ChatStep where
  response : ChatResponse
  dispatcherCalled : Bool
  toolCalled : Option String
  geminiCalled : Bool
deriving Repr, DecidableEq

/-- Localized `authentication_required` message. -/
def authRequiredMsg (language : String) : String :=
  if language == "ur" then
    "Yeh action karne ke liye login karein. Tasks banane ya manage karne ke liye sign in hona zaroori hai."
  else
    "Please log in to perform this action. You need to be signed in to create or manage tasks."

/-- Localized message of the generic `except Exception` arm. -/
def unexpectedErrMsg (language request_id : String) : String :=
  if language == "ur" then
    "Ek unexpected error aaya. Dobara try karein. Reference ID: " ++ request_id
  else
    "An unexpected error occurred. Please try again. Reference ID: " ++ request_id

/-- The response error code each escaped Gemini exception maps to
(routers/chatbot.py lines 232-385). -/
def gemErrCode : GemErr → String
  | .auth => "authentication_failed"
  | .quota => "quota_exceeded"
  | .network => "network_error"
  | .gemini => "internal_error"

/-- The localized message paired with each escaped Gemini exception. -/
def gemErrMsg (e : GemErr) (language request_id : String) : String :=
  match e with
  | .auth =>
      if language == "ur" then
        "Chatbot service abhi available nahi hai (configuration issue). Support se contact karein. Reference ID: " ++ request_id
      else
        "The chatbot service is temporarily unavailable due to a configuration issue. Please contact support with reference ID: " ++ request_id
  | .quota =>
      if language == "ur" then
        "Chatbot abhi bohat busy hai. Kuch der baad dobara try karein."
      else
        "The chatbot is experiencing high demand right now. Please try again in a few moments."
  | .network =>
      if language == "ur" then
        "Chatbot service se connection nahi ho raha. Apna internet check karein aur dobara try karein."
      else
        "Unable to connect to the chatbot service. Please check your internet connection and try again."
  | .gemini =>
      if language == "ur" then
        "Chatbot mein koi issue aaya. Dobara try karein. Agar problem rahe toh support se contact karein. ID: " ++ request_id
      else
        "The chatbot encountered an issue. Please try again. If the problem persists, contact support with ID: " ++ request_id

/-- The `chat` endpoint (routers/chatbot.py lines 68-385). -/
def chat (execT : String → ToolDict) (gem : Except GemErr String) (clientOk : Bool)
    (language : String) (req : ChatRequest) (request_id : String) : ChatStep :=
  if !clientOk then
    ⟨⟨false, "", some "internal_error", some (unexpectedErrMsg language request_id),
      request_id⟩, false, none, false⟩
  else
    let message_lower := pyLower req.message
    let requires_auth := auth_required_keywords.any (fun k => pyContains message_lower k)
    if requires_auth && req.user_id.isNone then
      ⟨⟨false, "", some "authentication_required", some (authRequiredMsg language),
        request_id⟩, false, none, false⟩
    else
      let run := run_agent execT gem req.message
      match run.result with
      | .ok reply =>
          ⟨⟨true, reply, none, none, request_id⟩, true, run.toolCalled, run.geminiCalled⟩
      | .error e =>
          ⟨⟨false, "", some (gemErrCode e), some (gemErrMsg e language request_id),
            request_id⟩, true, run.toolCalled, run.geminiCalled⟩

/-! # Theorems -/

/-! ## Registry validation helpers -/

theorem ALL_TOOL_NAMES_nodup : ALL_TOOL_NAMES.Nodup := by decide

theorem ALL_TOOL_NAMES_length : ALL_TOOL_NAMES.length = 12 := by decide

/-- `validate` succeeds exactly when no required name is missing and the
registered count matches the required count. -/
theorem validate_true_iff (registered : List String) :
    validate registered = true ↔
      get_missing_tools registered = [] ∧
        registered.length = ALL_TOOL_NAMES.length := by
  unfold validate
  split_ifs with h1 h2 <;> simp_all

/-- The missing-name list is empty exactly when every required name is
registered. -/
theorem get_missing_tools_eq_nil_iff (registered : List String) :
    get_missing_tools registered = [] ↔
      ∀ n ∈ ALL_TOOL_NAMES, n ∈ registered := by
  unfold get_missing_tools
  rw [List.filter_eq_nil_iff]
  simp [List.elem_iff]

/-- The registration loop keeps the key list duplicate-free. -/
theorem registerTools_nodup :
    ∀ (names acc rs : List String), acc.Nodup →
      registerTools names acc = .ok rs → rs.Nodup := by
  intro names
  induction names with
  | nil =>
      intro acc rs hacc h
      simp only [registerTools] at h
      cases h
      exact hacc
  | cons n ns ih =>
      intro acc rs hacc h
      simp only [registerTools] at h
      split at h
      · cases h
      · rename_i hc
        refine ih (acc ++ [n]) rs ?_ h
        have hn : n ∉ acc := by
          simpa [List.elem_iff] using hc
        exact hacc.append (List.nodup_singleton n)
          (fun x hx hx' => by
            rw [List.mem_singleton] at hx'
            exact hn (hx' ▸ hx))

/-! ## C2 -/

/-- C2: `registry.validate()` returns true iff the set of registered tool
names exactly equals the required closed set of 12 names (no name missing,
no extra name; registration itself keeps the key list duplicate-free), and
when validation fails, `validate_all_tools` raises an error carrying the
list of missing names, so an incomplete registry is a fatal startup
condition. -/
theorem C2_registry_validate (registered : List String) (h : registered.Nodup) :
    (validate registered = true ↔ ∀ n, n ∈ registered ↔ n ∈ ALL_TOOL_NAMES)
    ∧ (validate registered = false →
        validate_all_tools registered = .error (get_missing_tools registered))
    ∧ (∀ names rs, register_all_tools names = .ok rs → rs.Nodup) := by
  refine ⟨?_, ?_, ?_⟩
  · rw [validate_true_iff, get_missing_tools_eq_nil_iff]
    constructor
    · rintro ⟨hmem, hlen⟩ n
      have hsub : ALL_TOOL_NAMES.toFinset ⊆ registered.toFinset := by
        intro x hx
        rw [List.mem_toFinset] at hx ⊢
        exact hmem x hx
      have hcardr : registered.toFinset.card = registered.length :=
        List.toFinset_card_of_nodup h
      have hcarda : ALL_TOOL_NAMES.toFinset.card = ALL_TOOL_NAMES.length :=
        List.toFinset_card_of_nodup ALL_TOOL_NAMES_nodup
      have hle : registered.toFinset.card ≤ ALL_TOOL_NAMES.toFinset.card := by
        rw [hcardr, hcarda, hlen]
      have heq : ALL_TOOL_NAMES.toFinset = registered.toFinset :=
        Finset.eq_of_subset_of_card_le hsub hle
      constructor
      · intro hn
        have : n ∈ registered.toFinset := by rwa [List.mem_toFinset]
        rw [← heq, List.mem_toFinset] at this
        exact this
      · intro hn
        have : n ∈ ALL_TOOL_NAMES.toFinset := by rwa [List.mem_toFinset]
        rw [heq, List.mem_toFinset] at this
        exact this
    · intro hiff
      have heq : registered.toFinset = ALL_TOOL_NAMES.toFinset := by
        ext n
        rw [List.mem_toFinset, List.mem_toFinset]
        exact hiff n
      refine ⟨fun n hn => (hiff n).mpr hn, ?_⟩
      calc registered.length
          = registered.toFinset.card := (List.toFinset_card_of_nodup h).symm
        _ = ALL_TOOL_NAMES.toFinset.card := by rw [heq]
        _ = ALL_TOOL_NAMES.length := List.toFinset_card_of_nodup ALL_TOOL_NAMES_nodup
  · intro hfail
    unfold validate_all_tools
    rw [hfail]
    rfl
  · intro names rs hok
    exact registerTools_nodup names [] rs List.nodup_nil hok

/-- Witness for C2: the required name list itself validates, an
incomplete registry (the task tools only) fails and aborts startup with
the seven missing names. -/
theorem C2_registry_validate_witness :
    validate ALL_TOOL_NAMES = true ∧
      validate_all_tools TASK_MANAGEMENT_TOOLS =
        .error (get_missing_tools TASK_MANAGEMENT_TOOLS) :=
  ⟨((C2_registry_validate ALL_TOOL_NAMES (by decide)).1).mpr (fun _ => Iff.rfl),
   (C2_registry_validate TASK_MANAGEMENT_TOOLS (by decide)).2.1 (by decide)⟩

/-! ## C3 -/

/-- C3: tool dispatch never raises: `execute` on a name absent from the
registry returns a structured failed dict with error `TOOL_NOT_FOUND`
carrying the available tool names, and a registered tool whose handler
raises yields a failed dict with error `EXECUTION_ERROR` instead of a
propagated exception.  (`ToolRegistry.execute` and `CallableTool.execute`
are total functions of the handler behavior, so no input raises.) -/
theorem C3_execute_never_raises (reg : ToolRegistry) (tool_name : String) :
    (reg.tools.lookup tool_name = none →
      reg.execute tool_name =
        ⟨false, none, some "TOOL_NOT_FOUND",
         some ("Tool '" ++ tool_name ++ "' not found in registry"),
         some reg.get_all_tool_names⟩)
    ∧ (∀ msg, reg.tools.lookup tool_name = some (.raises msg) →
        reg.execute tool_name =
          ⟨false, none, some "EXECUTION_ERROR",
           some ("Tool execution failed: " ++ msg), none⟩) := by
  constructor
  · intro habsent
    unfold ToolRegistry.execute
    rw [habsent]
  · intro msg hfound
    unfold ToolRegistry.execute
    rw [hfound]
    rfl

/-- Witness for C3: in a registry holding only a `create_task` tool whose
handler raises, executing `nonexistent_tool` reports `TOOL_NOT_FOUND` with
the available names, and executing `create_task` reports
`EXECUTION_ERROR`. -/
theorem C3_execute_never_raises_witness :
    ToolRegistry.execute ⟨[("create_task", .raises "boom")]⟩ "nonexistent_tool" =
        ⟨false, none, some "TOOL_NOT_FOUND",
         some "Tool 'nonexistent_tool' not found in registry",
         some ["create_task"]⟩
    ∧ ToolRegistry.execute ⟨[("create_task", .raises "boom")]⟩ "create_task" =
        ⟨false, none, some "EXECUTION_ERROR",
         some "Tool execution failed: boom", none⟩ :=
  ⟨(C3_execute_never_raises ⟨[("create_task", .raises "boom")]⟩ "nonexistent_tool").1 rfl,
   (C3_execute_never_raises ⟨[("create_task", .raises "boom")]⟩ "create_task").2 "boom" rfl⟩

/-! ## Task CRUD helpers -/

/-- Any row passing the `list_tasks` filter belongs to the requested
user. -/
theorem listFilter_user {u : Nat} {c : Option String} {cp : Option Bool}
    {p : Option String} {t : SpiritualTask}
    (h : DatabaseClient.listFilter u c cp p t = true) : t.user_id = u := by
  unfold DatabaseClient.listFilter at h
  simp only [Bool.and_eq_true, beq_iff_eq] at h
  exact h.1.1.1

/-! ## C1 -/

/-- C1: `list_tasks(u, filters)` returns only rows owned by `u`, ordered
newest-first by creation time, and with no filters returns exactly the rows
owned by `u`; and `delete_task(u, t)` for a task id that exists but belongs
to a different user returns a failed result with error `NOT_FOUND` and
leaves the table unchanged. -/
theorem C1_ownership_isolation (db : DB) (u : Nat) :
    (∀ category completed priority,
      ∀ t ∈ DatabaseClient.listTasksRows db u category completed priority,
        t.user_id = u)
    ∧ (∀ category completed priority,
        List.Pairwise (fun a b => b.created_at ≤ a.created_at)
          (DatabaseClient.listTasksRows db u category completed priority))
    ∧ (∀ t, t ∈ DatabaseClient.listTasksRows db u none none none ↔
        t ∈ db.tasks ∧ t.user_id = u)
    ∧ (∀ tid, (∃ t ∈ db.tasks, t.id = tid) →
        (∀ t ∈ db.tasks, t.id = tid → t.user_id ≠ u) →
        DatabaseClient.delete_task db u tid =
          (⟨false, none, some "NOT_FOUND",
            some ("Task " ++ toString tid ++ " not found")⟩, db)) := by
  refine ⟨?_, ?_, ?_, ?_⟩
  · intro c cp p t ht
    simp only [DatabaseClient.listTasksRows, List.mem_mergeSort, List.mem_filter] at ht
    exact listFilter_user ht.2
  · intro c cp p
    unfold DatabaseClient.listTasksRows
    refine List.Pairwise.imp ?_ (List.sorted_mergeSort ?_ ?_ _)
    · intro a b hab
      exact Nat.le_of_ble_eq_true hab
    · intro a b c hab hbc
      simp only [Nat.ble_eq] at *
      omega
    · intro a b
      rw [Bool.or_eq_true]
      simp only [Nat.ble_eq]
      omega
  · intro t
    simp only [DatabaseClient.listTasksRows, List.mem_mergeSort, List.mem_filter]
    constructor
    · rintro ⟨hmem, hf⟩
      exact ⟨hmem, listFilter_user hf⟩
    · rintro ⟨hmem, hu⟩
      refine ⟨hmem, ?_⟩
      simp [DatabaseClient.listFilter, hu]
  · intro tid _hex hno
    have hfind : db.tasks.find? (DatabaseClient.ownedBy u tid) = none := by
      rw [List.find?_eq_none]
      intro x hx
      unfold DatabaseClient.ownedBy
      simp only [Bool.and_eq_true, beq_iff_eq, not_and]
      exact fun hid hu => hno x hx hid hu
    simp only [DatabaseClient.delete_task, hfind]

/-- Witness for C1: with a table holding one task (id 1, owner 5),
`delete_task(user=7, task_id=1)` returns `NOT_FOUND` and the row stays. -/
theorem C1_ownership_isolation_witness :
    DatabaseClient.delete_task
        ⟨[{ id := 1, user_id := 5, title := "t", description := "",
            category := "OTHER", priority := "MEDIUM" }], 2⟩ 7 1 =
      (⟨false, none, some "NOT_FOUND", some ("Task " ++ toString 1 ++ " not found")⟩,
       ⟨[{ id := 1, user_id := 5, title := "t", description := "",
           category := "OTHER", priority := "MEDIUM" }], 2⟩) :=
  (C1_ownership_isolation
      ⟨[{ id := 1, user_id := 5, title := "t", description := "",
          category := "OTHER", priority := "MEDIUM" }], 2⟩ 7).2.2.2 1
    (by decide) (by decide)

/-! ## C7 -/

/-- Counterexample for C7: the value `priority = "High"` of the claim's
partial-patch example is not a label of the enum-typed priority column
(its labels are the member names URGENT/HIGH/MEDIUM/LOW), so on an owned
task the commit fails: `update_task` returns `DATABASE_ERROR` and the row
keeps priority `"MEDIUM"` — it does not change only the priority. -/
theorem C7_update_partial_patch_counterexample :
    PriorityNames.contains "High" = false
    ∧ DatabaseClient.update_task
        ⟨[{ id := 1, user_id := 7, title := "pray fajr", description := "",
            category := "FARZ", priority := "MEDIUM" }], 2⟩ 7 1
        ⟨none, none, none, some "High", none, none, none, none, none, none, none⟩ =
      (⟨false, none, some "DATABASE_ERROR", some "Failed to update task"⟩,
       ⟨[{ id := 1, user_id := 7, title := "pray fajr", description := "",
           category := "FARZ", priority := "MEDIUM" }], 2⟩) := by
  decide

/-- C7 (amended): `update_task` returns a failed `NOT_FOUND` result (with
the table untouched) when no task with that id is owned by that user; an
empty patch changes nothing and a priority-only patch changes exactly the
priority field; when every provided enum value is a valid member-name
label (e.g. priority `"HIGH"`), the update rewrites only the matched row;
a provided enum value that is not a valid label (such as `"High"`) makes
the commit fail, so `update_task` returns `DATABASE_ERROR` and leaves the
table unchanged. -/
theorem C7_update_partial_patch (db : DB) (u tid : Nat) :
    (∀ patch, (∀ t ∈ db.tasks, ¬(t.id = tid ∧ t.user_id = u)) →
      DatabaseClient.update_task db u tid patch =
        (⟨false, none, some "NOT_FOUND",
          some ("Task " ++ toString tid ++ " not found")⟩, db))
    ∧ (∀ t : SpiritualTask, DatabaseClient.applyPatch t
        ⟨none, none, none, none, none, none, none, none, none, none, none⟩ = t)
    ∧ (∀ (t : SpiritualTask) (pr : String),
        DatabaseClient.applyPatch t
          ⟨none, none, none, some pr, none, none, none, none, none, none, none⟩ =
          { t with priority := pr })
    ∧ (∀ (t : SpiritualTask) (pr : String),
        PriorityNames.contains pr = true →
        db.tasks.find? (DatabaseClient.ownedBy u tid) = some t →
        DatabaseClient.update_task db u tid
            ⟨none, none, none, some pr, none, none, none, none, none, none, none⟩ =
          (⟨true, some (.taskUpdated t.id t.title), none, none⟩,
           ⟨DatabaseClient.updateFirst (DatabaseClient.ownedBy u tid)
              (fun x => { x with priority := pr }) db.tasks, db.nextId⟩))
    ∧ (∀ (patch : DatabaseClient.TaskPatch) (t : SpiritualTask),
        db.tasks.find? (DatabaseClient.ownedBy u tid) = some t →
        DatabaseClient.patchEnumValid patch = false →
        DatabaseClient.update_task db u tid patch =
          (⟨false, none, some "DATABASE_ERROR", some "Failed to update task"⟩, db)) := by
  refine ⟨?_, ?_, ?_, ?_, ?_⟩
  · intro patch hno
    have hfind : db.tasks.find? (DatabaseClient.ownedBy u tid) = none := by
      rw [List.find?_eq_none]
      intro x hx
      unfold DatabaseClient.ownedBy
      simp only [Bool.and_eq_true, beq_iff_eq, not_and]
      exact fun hid hu => hno x hx ⟨hid, hu⟩
    simp only [DatabaseClient.update_task, hfind]
  · intro t
    rfl
  · intro t pr
    rfl
  · intro t pr hpr hfind
    have hmem : pr ∈ PriorityNames := List.elem_iff.mp hpr
    have hvalid : DatabaseClient.patchEnumValid
        ⟨none, none, none, some pr, none, none, none, none, none, none, none⟩ = true := by
      simp [DatabaseClient.patchEnumValid, hmem]
    simp only [DatabaseClient.update_task, hfind, hvalid, if_true]
    rfl
  · intro patch t hfind hinvalid
    simp only [DatabaseClient.update_task, hfind, hinvalid]
    rfl

/-- Witness for C7: updating only the priority of an owned task with the
valid label `"HIGH"` rewrites exactly that field of that row. -/
theorem C7_update_partial_patch_witness :
    DatabaseClient.update_task
        ⟨[{ id := 1, user_id := 7, title := "pray fajr", description := "",
            category := "FARZ", priority := "MEDIUM" }], 2⟩ 7 1
        ⟨none, none, none, some "HIGH", none, none, none, none, none, none, none⟩ =
      (⟨true, some (.taskUpdated 1 "pray fajr"), none, none⟩,
       ⟨[{ id := 1, user_id := 7, title := "pray fajr", description := "",
           category := "FARZ", priority := "HIGH" }], 2⟩) :=
  (C7_update_partial_patch
      ⟨[{ id := 1, user_id := 7, title := "pray fajr", description := "",
          category := "FARZ", priority := "MEDIUM" }], 2⟩ 7 1).2.2.2.1
    { id := 1, user_id := 7, title := "pray fajr", description := "",
      category := "FARZ", priority := "MEDIUM" } "HIGH" (by decide) (by decide)

/-! ## C9 -/

/-- Counterexample for C9: an unrecognized category value is NOT replaced
by the documented default — `create_task` with category `"xyz"` uppercases
it to `"XYZ"`, which is not a label of the enum-typed category column, so
the insert is rejected and the handler returns `DATABASE_ERROR` with the
table unchanged, instead of succeeding with the default `"Other"`. -/
theorem C9_create_defaults_counterexample :
    TaskCategoryNames.contains (pyUpper "xyz") = false
    ∧ DatabaseClient.create_task ⟨[], 1⟩ 7 "read quran" "xyz" =
        (⟨false, none, some "DATABASE_ERROR", some "Failed to create task"⟩,
         ⟨[], 1⟩) := by
  decide

/-- C9 (amended): `create_task` returns a successful result unless the
storage layer fails (then the error is `DATABASE_ERROR`), assigns the
fresh autoincrement id to the created row, and substitutes the documented
default for a missing or empty enum value (missing category → default
`"Other"`, stored under its uppercase label `"OTHER"`); a recognized
non-empty category value is stored under its uppercase label, while an
unrecognized one is uppercased, rejected by the enum-typed column at
commit, and reported as `DATABASE_ERROR` — not replaced by the default. -/
theorem C9_create_defaults (db : DB) (u : Nat) (title : String) :
    (∃ task : SpiritualTask,
      DatabaseClient.create_task db u title =
        (⟨true, some (.taskCreated db.nextId title "OTHER" "MEDIUM" false), none, none⟩,
         ⟨db.tasks ++ [task], db.nextId + 1⟩)
      ∧ task.id = db.nextId ∧ task.category = "OTHER" ∧ task.user_id = u)
    ∧ ((∀ t ∈ db.tasks, t.id < db.nextId) → ∀ t ∈ db.tasks, t.id ≠ db.nextId)
    ∧ (∀ c : String, c ≠ "" → TaskCategoryNames.contains (pyUpper c) = true →
        (DatabaseClient.create_task db u title c).1 =
          ⟨true, some (.taskCreated db.nextId title (pyUpper c) "MEDIUM" false),
           none, none⟩)
    ∧ (∀ c : String, c ≠ "" → TaskCategoryNames.contains (pyUpper c) = false →
        DatabaseClient.create_task db u title c =
          (⟨false, none, some "DATABASE_ERROR", some "Failed to create task"⟩, db))
    ∧ (DatabaseClient.create_task db u title "Other" "medium" none none none none
          none none none 0 true =
        (⟨false, none, some "DATABASE_ERROR", some "Failed to create task"⟩, db)) := by
  refine ⟨⟨_, rfl, rfl, rfl, rfl⟩, ?_, ?_, ?_, rfl⟩
  · intro hinv t ht
    exact Nat.ne_of_lt (hinv t ht)
  · intro c hc hvalid
    have h1 : pyUpper c ∈ TaskCategoryNames := List.elem_iff.mp hvalid
    have h2 : pyUpper "medium" ∈ PriorityNames := by decide
    have h3 : ("NONE" : String) ∈ RecurrenceNames := by decide
    simp [DatabaseClient.create_task, DatabaseClient.enumColumnsValid, hc, h1, h2, h3]
    rfl
  · intro c hc hinvalid
    have h1 : pyUpper c ∉ TaskCategoryNames := by
      intro hmem
      have htrue : TaskCategoryNames.contains (pyUpper c) = true := List.elem_iff.mpr hmem
      rw [htrue] at hinvalid
      simp at hinvalid
    simp [DatabaseClient.create_task, DatabaseClient.enumColumnsValid, hc, h1]

/-- Witness for C9: creating with category `"farz"` stores the uppercased
label `"FARZ"`, and creating with category `"xyz"` is rejected with
`DATABASE_ERROR`. -/
theorem C9_create_defaults_witness :
    (DatabaseClient.create_task ⟨[], 1⟩ 7 "read quran" "farz").1 =
      ⟨true, some (.taskCreated 1 "read quran" "FARZ" "MEDIUM" false), none, none⟩
    ∧ DatabaseClient.create_task ⟨[], 1⟩ 7 "dance" "xyz" =
        (⟨false, none, some "DATABASE_ERROR", some "Failed to create task"⟩, ⟨[], 1⟩) :=
  ⟨(C9_create_defaults ⟨[], 1⟩ 7 "read quran").2.2.1 "farz" (by decide) (by decide),
   (C9_create_defaults ⟨[], 1⟩ 7 "dance").2.2.2.1 "xyz" (by decide) (by decide)⟩

/-! ## Gemini retry-loop helpers -/

/-- One retried network failure advances the loop by one attempt and
appends the linear delay. -/
theorem genLoop_net_step (cfg : GeminiConfig) (api : Nat → ApiOutcome)
    (fuel attempt : Nat) (delays : List ℚ)
    (h1 : attempt ≤ cfg.max_retries) (h2 : attempt + 1 < cfg.max_retries)
    (hapi : api (attempt + 1) = .networkErr) :
    genLoop cfg api (fuel + 1) attempt delays =
      genLoop cfg api fuel (attempt + 1)
        (delays ++ [cfg.retry_delay * ((attempt + 1 : Nat) : ℚ)]) := by
  simp [genLoop, h1, h2, hapi]

/-- Running the loop through `n` retried network failures advances the
attempt counter by `n` and accumulates the linear back-off delays. -/
theorem genLoop_run (cfg : GeminiConfig) (api : Nat → ApiOutcome) :
    ∀ (n fuel attempt : Nat) (delays : List ℚ),
      n ≤ fuel →
      (∀ i, i < n → attempt + i + 1 < cfg.max_retries) →
      (∀ j, attempt < j → j ≤ attempt + n → api j = .networkErr) →
      genLoop cfg api (fuel + 1) attempt delays =
        genLoop cfg api (fuel + 1 - n) (attempt + n)
          (delays ++ (List.range n).map
            (fun i => cfg.retry_delay * ((attempt + i + 1 : Nat) : ℚ))) := by
  intro n
  induction n with
  | zero =>
      intro fuel attempt delays _ _ _
      simp
  | succ n ih =>
      intro fuel attempt delays hfuel hlt hnet
      have h2 : attempt + 1 < cfg.max_retries := by
        have := hlt 0 (by omega)
        omega
      have h1 : attempt ≤ cfg.max_retries := by omega
      obtain ⟨fuel', rfl⟩ : ∃ f, fuel = f + 1 := ⟨fuel - 1, by omega⟩
      rw [genLoop_net_step cfg api (fuel' + 1) attempt delays h1 h2
            (hnet (attempt + 1) (by omega) (by omega))]
      rw [ih fuel' (attempt + 1)
            (delays ++ [cfg.retry_delay * ((attempt + 1 : Nat) : ℚ)])
            (by omega)
            (fun i hi => by have := hlt (i + 1) (by omega); omega)
            (fun j hj1 hj2 => hnet j (by omega) (by omega))]
      have hmap : (List.range (n + 1)).map
            (fun i => cfg.retry_delay * ((attempt + i + 1 : Nat) : ℚ)) =
          cfg.retry_delay * ((attempt + 1 : Nat) : ℚ) ::
            (List.range n).map
              (fun i => cfg.retry_delay * ((attempt + 1 + i + 1 : Nat) : ℚ)) := by
        rw [List.range_succ_eq_map, List.map_cons, List.map_map]
        congr 1
        apply List.map_congr_left
        intro i _
        show cfg.retry_delay * ((attempt + (i + 1) + 1 : Nat) : ℚ) = _
        have harith : attempt + (i + 1) + 1 = attempt + 1 + i + 1 := by omega
        rw [harith]
      rw [hmap, List.append_cons]
      have hfuel2 : fuel' + 1 + 1 - (n + 1) = fuel' + 1 - n := by omega
      have hatt : attempt + 1 + n = attempt + (n + 1) := by omega
      rw [hfuel2, hatt]
      simp

/-- A `generate_response` run whose first `k - 1` attempts fail with
transient network errors reaches attempt `k` having slept the linear
back-off schedule; the lemma lists what each possible outcome of attempt
`k` produces. -/
theorem generate_response_run (cfg : GeminiConfig) (api : Nat → ApiOutcome)
    (k : Nat) (hk : 1 ≤ k)
    (hnet : ∀ j, 1 ≤ j → j < k → api j = .networkErr)
    (hstep : ∀ j, 1 ≤ j → j < k → j < cfg.max_retries) :
    (∀ t, api k = .ok t →
      generate_response cfg api = ⟨.success t, k, linearDelays cfg (k - 1)⟩)
    ∧ (api k = .unauthenticated →
      generate_response cfg api = ⟨.authError, k, linearDelays cfg (k - 1)⟩)
    ∧ (api k = .resourceExhausted →
      generate_response cfg api = ⟨.quotaError, k, linearDelays cfg (k - 1)⟩)
    ∧ (api k = .notFound →
      generate_response cfg api =
        ⟨.geminiError (modelNotFoundMsg cfg), k, linearDelays cfg (k - 1)⟩)
    ∧ (∀ msg, api k = .other msg →
      generate_response cfg api =
        ⟨.geminiError ("An unexpected error occurred while calling Gemini API: " ++ msg),
         k, linearDelays cfg (k - 1)⟩)
    ∧ (api k = .networkErr → ¬ k < cfg.max_retries →
      generate_response cfg api =
        ⟨.networkError networkUnavailableMsg, k, linearDelays cfg (k - 1)⟩) := by
  have hk1 : k - 1 ≤ cfg.max_retries := by
    by_cases hone : k = 1
    · omega
    · have := hstep (k - 1) (by omega) (by omega)
      omega
  have hrun := genLoop_run cfg api (k - 1) cfg.max_retries 0 []
    (by omega)
    (fun i hi => by have := hstep (i + 1) (by omega) (by omega); omega)
    (fun j hj1 hj2 => hnet j (by omega) (by omega))
  have hdel : (([] : List ℚ) ++ (List.range (k - 1)).map
      (fun i => cfg.retry_delay * ((0 + i + 1 : Nat) : ℚ))) = linearDelays cfg (k - 1) := by
    simp [linearDelays, Nat.zero_add]
  rw [Nat.zero_add, hdel] at hrun
  obtain ⟨m, hm⟩ : ∃ m, cfg.max_retries + 1 - (k - 1) = m + 1 :=
    ⟨cfg.max_retries - (k - 1), by omega⟩
  rw [hm] at hrun
  have hsucc : k - 1 + 1 = k := by omega
  refine ⟨?_, ?_, ?_, ?_, ?_, ?_⟩
  · intro t h
    unfold generate_response
    rw [hrun]
    simp [genLoop, hk1, hsucc, h]
  · intro h
    unfold generate_response
    rw [hrun]
    simp [genLoop, hk1, hsucc, h]
  · intro h
    unfold generate_response
    rw [hrun]
    simp [genLoop, hk1, hsucc, h]
  · intro h
    unfold generate_response
    rw [hrun]
    simp [genLoop, hk1, hsucc, h]
  · intro msg h
    unfold generate_response
    rw [hrun]
    simp [genLoop, hk1, hsucc, h]
  · intro h hmax
    unfold generate_response
    rw [hrun]
    simp [genLoop, hk1, hsucc, h, hmax]

/-! ## C4 -/

/-- C4: only transient network failures are retried, with linear
non-decreasing delay `retry_delay * attempt_number`; three consecutive
network failures followed by a success return the success value after
exactly 3 retries (4 attempts, 3 sleeps); auth, quota and model-not-found
failures raise their typed exception immediately with zero further
retries, on whichever attempt they occur; and an all-network run stops at
the configured maximum attempt count. -/
theorem C4_retry_policy (cfg : GeminiConfig) (api : Nat → ApiOutcome) :
    (∀ t, api 1 = .networkErr → api 2 = .networkErr → api 3 = .networkErr →
      api 4 = .ok t → 3 < cfg.max_retries →
      generate_response cfg api =
        ⟨.success t, 4,
         [cfg.retry_delay * 1, cfg.retry_delay * 2, cfg.retry_delay * 3]⟩
      ∧ (0 ≤ cfg.retry_delay →
          List.Chain' (· ≤ ·)
            [cfg.retry_delay * 1, cfg.retry_delay * 2, cfg.retry_delay * 3]))
    ∧ (∀ k, 1 ≤ k →
        (∀ j, 1 ≤ j → j < k → api j = .networkErr) →
        (∀ j, 1 ≤ j → j < k → j < cfg.max_retries) →
        (api k = .unauthenticated →
          generate_response cfg api = ⟨.authError, k, linearDelays cfg (k - 1)⟩)
        ∧ (api k = .resourceExhausted →
          generate_response cfg api = ⟨.quotaError, k, linearDelays cfg (k - 1)⟩)
        ∧ (api k = .notFound →
          generate_response cfg api =
            ⟨.geminiError (modelNotFoundMsg cfg), k, linearDelays cfg (k - 1)⟩))
    ∧ ((∀ j, api j = .networkErr) →
        generate_response cfg api =
          ⟨.networkError networkUnavailableMsg, max cfg.max_retries 1,
           linearDelays cfg (cfg.max_retries - 1)⟩) := by
  refine ⟨?_, ?_, ?_⟩
  · intro t h1 h2 h3 h4 hmax
    have hnet : ∀ j, 1 ≤ j → j < 4 → api j = .networkErr := by
      intro j hj1 hj2
      interval_cases j <;> assumption
    have hstep : ∀ j, 1 ≤ j → j < 4 → j < cfg.max_retries := by
      intro j _ hj
      omega
    have H := (generate_response_run cfg api 4 (by omega) hnet hstep).1 t h4
    have hdelays : linearDelays cfg 3 =
        [cfg.retry_delay * 1, cfg.retry_delay * 2, cfg.retry_delay * 3] := by
      simp [linearDelays, List.range_succ]
      norm_num
    constructor
    · rw [H]
      simp [hdelays]
    · intro hd
      have h12 : cfg.retry_delay * 1 ≤ cfg.retry_delay * 2 :=
        mul_le_mul_of_nonneg_left (by norm_num) hd
      have h23 : cfg.retry_delay * 2 ≤ cfg.retry_delay * 3 :=
        mul_le_mul_of_nonneg_left (by norm_num) hd
      have h12' : cfg.retry_delay ≤ cfg.retry_delay * 2 := by
        rw [mul_one] at h12
        exact h12
      simp [List.chain'_cons, h12', h23]
  · intro k hk hnet hstep
    have H := generate_response_run cfg api k hk hnet hstep
    exact ⟨H.2.1, H.2.2.1, H.2.2.2.1⟩
  · intro hall
    by_cases h0 : cfg.max_retries = 0
    · have H := (generate_response_run cfg api 1 (by omega)
          (by omega) (by omega)).2.2.2.2.2 (hall 1) (by omega)
      rw [H]
      simp [h0, linearDelays]
    · have h1 : 1 ≤ cfg.max_retries := by omega
      have hmax : max cfg.max_retries 1 = cfg.max_retries := Nat.max_eq_left h1
      rw [hmax]
      exact (generate_response_run cfg api cfg.max_retries h1
          (fun j _ _ => hall j) (fun j _ hj => hj)).2.2.2.2.2
        (hall cfg.max_retries) (lt_irrefl cfg.max_retries)

/-- Witness for C4: with `max_retries = 4` and `retry_delay = 1`, three
network failures followed by a success return the success value after
exactly 3 retries with delays 1, 2, 3. -/
theorem C4_retry_policy_witness :
    generate_response ⟨"gemini-2.0-flash", 4, 1⟩
        (fun n => if n ≤ 3 then .networkErr else .ok "hi") =
      ⟨.success "hi", 4, [1 * 1, 1 * 2, 1 * 3]⟩ :=
  ((C4_retry_policy ⟨"gemini-2.0-flash", 4, 1⟩
      (fun n => if n ≤ 3 then .networkErr else .ok "hi")).1 "hi"
    rfl rfl rfl rfl (by norm_num)).1

/-! ## C5 -/

/-- Counterexample for C5: this input matches both a delete pattern
(`(delete|remove|cancel).*task` on "delete show task") and a list pattern
(`(show|display|list|dikhao).*task` on "show task"), yet the classifier
returns `create_task` — a create pattern (`task\s+(create|bana|add|new)` on
"task new") also fires and create is checked first — so matching a delete
and a list pattern does not by itself force `delete_task`. -/
theorem C5_intent_priority_counterexample :
    anyPattern delete_patterns (pyLower "task new delete show task") = true
    ∧ anyPattern list_patterns (pyLower "task new delete show task") = true
    ∧ detect_intent "task new delete show task" ≠ "delete_task" := by
  decide

/-- C5 (amended): the classifier is a pure function of the lower-cased
input that checks the pattern sets in declaration order create > update >
delete > list > search-masjid and returns the first intent whose set
matches; an input matching both a delete and a list pattern resolves to
`delete_task` provided no create or update pattern also fires; an input
matching no pattern falls back to `conversation`. -/
theorem C5_intent_priority (m : String) :
    (anyPattern create_patterns (pyLower m) = true →
      detect_intent m = "create_task")
    ∧ (anyPattern create_patterns (pyLower m) = false →
       anyPattern update_patterns (pyLower m) = true →
      detect_intent m = "update_task")
    ∧ (anyPattern create_patterns (pyLower m) = false →
       anyPattern update_patterns (pyLower m) = false →
       anyPattern delete_patterns (pyLower m) = true →
      detect_intent m = "delete_task")
    ∧ (anyPattern create_patterns (pyLower m) = false →
       anyPattern update_patterns (pyLower m) = false →
       anyPattern delete_patterns (pyLower m) = false →
       anyPattern list_patterns (pyLower m) = true →
      detect_intent m = "list_tasks")
    ∧ (anyPattern create_patterns (pyLower m) = false →
       anyPattern update_patterns (pyLower m) = false →
       anyPattern delete_patterns (pyLower m) = false →
       anyPattern list_patterns (pyLower m) = false →
       anyPattern masjid_patterns (pyLower m) = true →
      detect_intent m = "search_masjids")
    ∧ (anyPattern create_patterns (pyLower m) = false →
       anyPattern update_patterns (pyLower m) = false →
       anyPattern delete_patterns (pyLower m) = false →
       anyPattern list_patterns (pyLower m) = false →
       anyPattern masjid_patterns (pyLower m) = false →
      detect_intent m = "conversation") := by
  refine ⟨?_, ?_, ?_, ?_, ?_, ?_⟩
  · intro h1
    simp [detect_intent, h1]
  · intro h1 h2
    simp [detect_intent, h1, h2]
  · intro h1 h2 h3
    simp [detect_intent, h1, h2, h3]
  · intro h1 h2 h3 h4
    simp [detect_intent, h1, h2, h3, h4]
  · intro h1 h2 h3 h4 h5
    simp [detect_intent, h1, h2, h3, h4, h5]
  · intro h1 h2 h3 h4 h5
    simp [detect_intent, h1, h2, h3, h4, h5]

/-- Witness for C5: an input matching a delete and a list pattern but no
create or update pattern resolves to `delete_task`. -/
theorem C5_intent_priority_witness :
    detect_intent "remove task show task" = "delete_task" :=
  (C5_intent_priority "remove task show task").2.2.1 (by decide) (by decide) (by decide)

/-! ## C6 -/

/-- Counterexample for C6: for the deterministic intent `delete_task` the
dispatcher calls no tool at all (it returns a canned prompt), and for a
failed `create_task` handler result the reply embeds the error code, not
the handler's `error_message` ("boom" does not occur in the reply). -/
theorem C6_dispatch_counterexample :
    detect_intent "delete task 5" = "delete_task"
    ∧ (run_agent (fun _ => ⟨false, none, some "NOT_FOUND", some "boom", none⟩)
        (Except.ok "hello") "delete task 5").toolCalled = none
    ∧ (run_agent (fun _ => ⟨false, none, some "NOT_FOUND", some "boom", none⟩)
        (Except.ok "hello") "task bana").result =
          .ok "❌ Failed to create task: NOT_FOUND"
    ∧ pyContains "❌ Failed to create task: NOT_FOUND" "boom" = false := by
  decide

/-- C6 (amended): for the create, list and search intents the dispatcher
calls `ToolRegistry.execute` for that intent's tool and formats a templated
reply whose failure form embeds the handler's error code (never a stack
trace); for the update and delete intents it calls no tool and returns a
canned prompt asking for the task id. -/
theorem C6_dispatch (execT : String → ToolDict) (gem : Except GemErr String)
    (m : String) :
    (detect_intent m = "create_task" →
      (run_agent execT gem m).toolCalled = some "create_task"
      ∧ ((execT "create_task").success = false →
          (run_agent execT gem m).result = .ok (createFailReply (execT "create_task"))))
    ∧ (detect_intent m = "list_tasks" →
      (run_agent execT gem m).toolCalled = some "list_tasks"
      ∧ ((execT "list_tasks").success = false →
          (run_agent execT gem m).result = .ok (listFailReply (execT "list_tasks"))))
    ∧ (detect_intent m = "search_masjids" →
      (run_agent execT gem m).toolCalled = some "search_masjids"
      ∧ ((execT "search_masjids").success = false →
          (run_agent execT gem m).result = .ok (searchFailReply (execT "search_masjids"))))
    ∧ (detect_intent m = "update_task" →
      run_agent execT gem m = ⟨.ok updatePromptReply, none, false⟩)
    ∧ (detect_intent m = "delete_task" →
      run_agent execT gem m = ⟨.ok deletePromptReply, none, false⟩) := by
  refine ⟨?_, ?_, ?_, ?_, ?_⟩
  · intro h
    constructor
    · simp [run_agent, h]
    · intro hfail
      simp [run_agent, h, hfail]
  · intro h
    constructor
    · simp [run_agent, h]
    · intro hfail
      simp [run_agent, h, hfail]
  · intro h
    constructor
    · simp [run_agent, h]
    · intro hfail
      simp [run_agent, h, hfail]
  · intro h
    simp [run_agent, h]
  · intro h
    simp [run_agent, h]

/-- Witness for C6: a delete-intent message produces the canned prompt and
no tool call. -/
theorem C6_dispatch_witness :
    run_agent (fun _ => ⟨true, none, none, none, none⟩) (Except.ok "hi")
        "delete task 5" =
      ⟨.ok deletePromptReply, none, false⟩ :=
  (C6_dispatch (fun _ => ⟨true, none, none, none, none⟩) (Except.ok "hi")
    "delete task 5").2.2.2.2 (by decide)

/-! ## C8 -/

/-- C8: an anonymous request whose message contains any keyword of the
fixed mutation-keyword list is rejected before dispatch: the endpoint
returns `success = false` with error `authentication_required`, and
`run_agent` is not called — hence no tool execution and no generation
call occur. -/
theorem C8_auth_boundary (execT : String → ToolDict) (gem : Except GemErr String)
    (language : String) (req : ChatRequest) (rid : String) :
    req.user_id = none →
    auth_required_keywords.any (fun k => pyContains (pyLower req.message) k) = true →
    chat execT gem true language req rid =
      ⟨⟨false, "", some "authentication_required", some (authRequiredMsg language), rid⟩,
       false, none, false⟩ := by
  intro hu hkw
  simp [chat, hu, hkw]

/-- Witness for C8: "delete my task" with no user id is rejected with
`authentication_required` and the dispatcher does not run. -/
theorem C8_auth_boundary_witness :
    chat (fun _ => ⟨true, none, none, none, none⟩) (Except.ok "hi") true "en"
        ⟨"delete my task", none⟩ "req-1" =
      ⟨⟨false, "", some "authentication_required", some (authRequiredMsg "en"), "req-1"⟩,
       false, none, false⟩ :=
  C8_auth_boundary (fun _ => ⟨true, none, none, none, none⟩) (Except.ok "hi") "en"
    ⟨"delete my task", none⟩ "req-1" rfl (by decide)

/-! ## Chat envelope helper -/

/-- Every response error code the endpoint can produce. -/
theorem chat_error_cases (execT : String → ToolDict) (gem : Except GemErr String)
    (ck : Bool) (language : String) (req : ChatRequest) (rid : String) :
    (chat execT gem ck language req rid).response.error = none ∨
    (chat execT gem ck language req rid).response.error = some "authentication_required" ∨
    (chat execT gem ck language req rid).response.error = some "authentication_failed" ∨
    (chat execT gem ck language req rid).response.error = some "quota_exceeded" ∨
    (chat execT gem ck language req rid).response.error = some "network_error" ∨
    (chat execT gem ck language req rid).response.error = some "internal_error" := by
  cases ck with
  | false => simp [chat]
  | true =>
      by_cases h2 : (auth_required_keywords.any (fun k => pyContains (pyLower req.message) k)
          && req.user_id.isNone) = true
      · simp [chat, h2]
      · cases hres : (run_agent execT gem req.message).result with
        | ok reply => simp [chat, h2, hres]
        | error e => cases e <;> simp [chat, h2, hres, gemErrCode]

/-! ## C10 -/

/-- C10: when a tool handler returns a failed result, the dispatcher turns
it into an ordinary reply embedding only the error code (the
`error_message` is quantified over and does not influence the reply), the
endpoint wraps any dispatcher reply in an envelope with `success = true`
and `error = none`, and no path of the endpoint ever produces the
documented `tool_execution_failed` code. -/
theorem C10_failure_envelope (execT : String → ToolDict) (gem : Except GemErr String)
    (language : String) (req : ChatRequest) (rid : String) :
    (∀ m e msg, detect_intent m = "create_task" →
      execT "create_task" = ⟨false, none, some e, some msg, none⟩ →
      (run_agent execT gem m).result = .ok ("❌ Failed to create task: " ++ e))
    ∧ (∀ reply, (run_agent execT gem req.message).result = .ok reply →
        (auth_required_keywords.any (fun k => pyContains (pyLower req.message) k)
          && req.user_id.isNone) = false →
        chat execT gem true language req rid =
          ⟨⟨true, reply, none, none, rid⟩, true,
           (run_agent execT gem req.message).toolCalled,
           (run_agent execT gem req.message).geminiCalled⟩)
    ∧ (∀ ck : Bool,
        (chat execT gem ck language req rid).response.error ≠ some "tool_execution_failed") := by
  refine ⟨?_, ?_, ?_⟩
  · intro m e msg hint hexec
    simp [run_agent, hint, hexec, createFailReply]
  · intro reply hreply hauth
    simp [chat, hauth, hreply]
  · intro ck
    rcases chat_error_cases execT gem ck language req rid with h | h | h | h | h | h <;>
      rw [h] <;> simp

/-- Witness for C10: a failed `create_task` handler result (error code
`NOT_FOUND`, error message "boom") becomes a success envelope whose message
embeds only the code. -/
theorem C10_failure_envelope_witness :
    chat (fun _ => ⟨false, none, some "NOT_FOUND", some "boom", none⟩)
        (Except.ok "hi") true "en" ⟨"task bana", some 7⟩ "r1" =
      ⟨⟨true, "❌ Failed to create task: NOT_FOUND", none, none, "r1"⟩,
       true, some "create_task", false⟩ :=
  (C10_failure_envelope (fun _ => ⟨false, none, some "NOT_FOUND", some "boom", none⟩)
      (Except.ok "hi") "en" ⟨"task bana", some 7⟩ "r1").2.1
    "❌ Failed to create task: NOT_FOUND" (by decide) (by decide)

end PrayerTodo
